import Mathlib

/-!
Verification development for the `param` declarative parameter library
(holoviz/param, version 2.2.1): parameter attribute inheritance with the
`Undefined` sentinel, validation on attribute assignment, and the
watcher/event dispatch system (`watch`, `trigger`, `batch_call_watchers`,
`queued`, `precedence`, dotted-path sub-object dependencies, shallow-copied
mutable slot values, the `async_executor` hook, and dynamic callable values).

The Python implementation modules (`param/parameterized.py`,
`param/parameters.py`) are not present in the source tree; only the project
documentation (user guide, upgrade guide, release notes, README) is.  Every
definition below is therefore modelled from the specification and from that
documentation, as indicated in each doc comment.
-/

namespace Param

/-! ## Definitions -/

/-- Values a parameter attribute can take.  `null` models Python `None`,
which is a legal value, distinct from the `Undefined` sentinel (the sentinel
is modelled by `Option.none` at the slot level). -/
inductive PValue where
  | null
  | num (n : Int)
  | str (s : String)
deriving DecidableEq

/-- Modelled from the spec: a metadata slot of a Parameter declaration.
`none` is the `Undefined` sentinel ("not specified"), `some v` an explicitly
supplied value, which may itself be null/false/empty. -/
abbrev Slot (α : Type) := Option α

/-- Modelled from the spec: "for every metadata slot on that descriptor that
was left at the Undefined sentinel, search ancestors in MRO order and copy
the first specified value found"; an explicitly supplied value (including an
explicit null) is kept as given. -/
def inheritSlot {α : Type} (loc : Slot α) (ancestors : List (Slot α)) : Slot α :=
  match loc with
  | some v => some v
  | none => ancestors.findSome? id

/-- Bounds of a numeric parameter: optional lower and upper bound, as in
`param.Number(bounds=(0, None))` from the documentation examples. -/
abbrev Bounds := Option Int × Option Int

/-- Modelled from the spec and upgrade guide: the metadata slots of a
(numeric) Parameter declaration.  Each slot is either the `Undefined`
sentinel or an explicitly supplied value. -/
structure ParamDecl where
  default : Slot PValue
  bounds : Slot Bounds
  allow_None : Slot Bool
  doc : Slot String
deriving DecidableEq

/-- Modelled from the spec: at class-definition time the local descriptor is
the base and every slot left at the `Undefined` sentinel is filled from the
ancestors, walked in MRO order. -/
def mergeDecl (loc : ParamDecl) (ancestors : List ParamDecl) : ParamDecl where
  default := inheritSlot loc.default (ancestors.map (·.default))
  bounds := inheritSlot loc.bounds (ancestors.map (·.bounds))
  allow_None := inheritSlot loc.allow_None (ancestors.map (·.allow_None))
  doc := inheritSlot loc.doc (ancestors.map (·.doc))

/-- A validation failure, naming the violated constraint (by constructor) and
the attribute, following the documented messages "Parameter b must be at
least 0", "Parameter a only takes numeric values", etc. -/
inductive ValidationError where
  | not_numeric (attr : String)
  | below_lower_bound (attr : String) (lo : Int)
  | above_upper_bound (attr : String) (hi : Int)
  | null_not_allowed (attr : String)
deriving DecidableEq

/-- The attribute named by a validation error. -/
def ValidationError.attr : ValidationError → String
  | .not_numeric a => a
  | .below_lower_bound a _ => a
  | .above_upper_bound a _ => a
  | .null_not_allowed a => a

/-- Modelled from the spec and documentation: validation of a candidate value
for a numeric parameter against the declaration.  Null values are permitted
only when `allow_None` is set; bounds are checked on numbers; non-numeric
values are rejected ("Parameter a only takes numeric values"). -/
def validate (attr : String) (p : ParamDecl) (v : PValue) : Option ValidationError :=
  match v with
  | .null => if p.allow_None.getD false then none else some (.null_not_allowed attr)
  | .num n =>
    match p.bounds with
    | some (lo?, hi?) =>
      match lo? with
      | some lo =>
        if n < lo then some (.below_lower_bound attr lo)
        else
          match hi? with
          | some hi => if hi < n then some (.above_upper_bound attr hi) else none
          | none => none
      | none =>
        match hi? with
        | some hi => if hi < n then some (.above_upper_bound attr hi) else none
        | none => none
    | none => none
  | .str _ => some (.not_numeric attr)

/-- A class-creation failure: the `RuntimeError` raised since version 2.2.0
when a parameter default fails to validate after inheritance, naming the
owning class and the attribute. -/
structure ClassCreationError where
  owner : String
  attr : String
deriving DecidableEq

/-- Modelled from the spec, upgrade guide and release notes: at
class-definition time the local declaration is merged with the ancestors in
MRO order, then the resolved default value is validated against the resolved
constraints.  Per the 2.2.0 release notes ("raise RuntimeError on ... failed
validation of a parameter default after inheritance"), a failed validation
raises and aborts class creation in the current version; in Param 2.0 this
was only a warning. -/
def createClass (owner attr : String) (loc : ParamDecl) (ancestors : List ParamDecl) :
    Except ClassCreationError ParamDecl :=
  let merged := mergeDecl loc ancestors
  match merged.default with
  | none => .ok merged
  | some v =>
    match validate attr merged v with
    | none => .ok merged
    | some _ => .error ⟨owner, attr⟩

/-- Whether an `Except` computation succeeded. -/
def exceptOk {ε α : Type} : Except ε α → Bool
  | .ok _ => true
  | .error _ => false

/-- Association-list lookup, generic in the key type. -/
def alookup {κ α : Type} [DecidableEq κ] : List (κ × α) → κ → Option α
  | [], _ => none
  | (k0, v0) :: t, k => if k0 = k then some v0 else alookup t k

/-- Association-list update (insert or overwrite), generic in the key type. -/
def aupdate {κ α : Type} [DecidableEq κ] : List (κ × α) → κ → α → List (κ × α)
  | [], k, v => [(k, v)]
  | (k0, v0) :: t, k, v => if k0 = k then (k, v) :: t else (k0, v0) :: aupdate t k v

/-- A Parameterized object: its per-attribute declarations (already merged)
and its stored values. -/
structure Parameterized where
  decls : List (String × ParamDecl)
  values : List (String × PValue)
deriving DecidableEq

/-- The stored value of an attribute. -/
def getValue (obj : Parameterized) (attr : String) : Option PValue :=
  alookup obj.values attr

/-- Modelled from the spec: "Writing validates before storing; an invalid
write leaves the prior value untouched and raises."  The returned pair is the
state after the call together with the raised error, if any: on a validation
failure the state component is exactly the input state (no partial
mutation); on success the value is stored. -/
def setAttr (obj : Parameterized) (attr : String) (v : PValue) :
    Parameterized × Option ValidationError :=
  match alookup obj.decls attr with
  | none => (obj, some (.not_numeric attr))
  | some p =>
    match validate attr p v with
    | some e => (obj, some e)
    | none => ({ obj with values := aupdate obj.values attr v }, none)

/-- The kind tag of an event: a genuine value change, or an explicit
re-trigger via `.param.trigger` (which fires without a value change). -/
inductive EventType where
  | changed
  | triggered
deriving DecidableEq

/-- An immutable record of one fired change, as documented for
`param.parameterized.Event`: attribute name, old value, new value, and the
type tag. -/
structure Event where
  name : String
  old : Int
  new : Int
  type : EventType
deriving DecidableEq

/-- A watcher registration as produced by `.param.watch`: the callback is
modelled by the list of attribute assignments it performs when invoked
(`effect`), identified by `id`. -/
structure Watcher where
  id : Nat
  attr : String
  onlychanged : Bool
  queued : Bool
  precedence : Int
  effect : List (String × Int)
deriving DecidableEq

/-- The dispatcher state: the numeric attribute values and the invocation
trace, i.e. which watcher was invoked with which event, in order. -/
structure DispatchState where
  values : List (String × Int)
  invoked : List (Nat × Event)
deriving DecidableEq

/-- Current stored value of a numeric attribute (documentation examples use
`param.Integer(default=0)`). -/
def lookupVal (vals : List (String × Int)) (a : String) : Int :=
  (alookup vals a).getD 0

/-- Modelled from the documentation: a watcher receives an event when the
attribute matches and either the watcher was registered with
`onlychanged=False`, or the value actually changed, or the event was
explicitly triggered (`.param.trigger` invokes watchers "even though the
value of b is not changing"). -/
def receives (w : Watcher) (e : Event) : Bool :=
  w.attr == e.name && (!w.onlychanged || e.old != e.new || e.type == .triggered)

/-- Ordering of watchers used at dispatch time. -/
def precLE (a b : Watcher) : Prop := a.precedence ≤ b.precedence

instance : DecidableRel precLE := fun a b => inferInstanceAs (Decidable (a.precedence ≤ b.precedence))

instance : IsTotal Watcher precLE := ⟨fun a b => Int.le_total a.precedence b.precedence⟩

instance : IsTrans Watcher precLE := ⟨fun _ _ _ h1 h2 => le_trans h1 h2⟩

/-- Modelled from the documentation: the watchers matching an event, invoked
in ascending order of their `precedence` key (a "higher precedence value for
run_a1 ... results in it being executed after run_a2"). -/
def matchingWatchers (ws : List Watcher) (e : Event) : List Watcher :=
  List.insertionSort precLE (ws.filter (fun w => receives w e))

/-- Performs a list of attribute assignments while only collecting the
generated events instead of dispatching them: this is how the effects of a
watcher registered with `queued=True` are handled (the documentation:
"run_b is not invoked while run_a1 executes, but only later"). -/
def collectSets (st : DispatchState) : List (String × Int) → DispatchState × List Event
  | [] => (st, [])
  | (a, v) :: rest =>
    let old := lookupVal st.values a
    let st1 := { st with values := aupdate st.values a v }
    let (st2, d) := collectSets st1 rest
    (st2, ⟨a, old, v, .changed⟩ :: d)

mutual

/-- Dispatches one event to its matching watchers, in precedence order.
Returns the new state and the events deferred by `queued` watchers.  The
`fuel` bounds the cascade depth (the dispatcher itself does not bound it;
a watcher chain producing ever-new values is a caller bug). -/
def runEvent : Nat → List Watcher → DispatchState → Event → DispatchState × List Event
  | 0, _, st, _ => (st, [])
  | fuel + 1, ws, st, e => goWatchers fuel ws st (matchingWatchers ws e) e

/-- Invokes each watcher of the given list on the event, accumulating
deferred events. -/
def goWatchers : Nat → List Watcher → DispatchState → List Watcher → Event → DispatchState × List Event
  | _, _, st, [], _ => (st, [])
  | 0, _, st, _ :: _, _ => (st, [])
  | fuel + 1, ws, st, w :: rest, e =>
    let (st1, d1) := runWatcher fuel ws st w e
    let (st2, d2) := goWatchers fuel ws st1 rest e
    (st2, d1 ++ d2)

/-- Invokes one watcher: records the invocation, then performs the
callback's attribute assignments.  For a `queued=True` watcher the generated
events are collected and deferred to the end of the current dispatch cycle;
for a non-queued watcher each assignment dispatches immediately
(depth-first). -/
def runWatcher : Nat → List Watcher → DispatchState → Watcher → Event → DispatchState × List Event
  | 0, _, st, _, _ => (st, [])
  | fuel + 1, ws, st, w, e =>
    let st1 := { st with invoked := st.invoked ++ [(w.id, e)] }
    if w.queued then collectSets st1 w.effect
    else goEffects fuel ws st1 w.effect

/-- Performs a list of attribute assignments with immediate dispatch of each
generated event. -/
def goEffects : Nat → List Watcher → DispatchState → List (String × Int) → DispatchState × List Event
  | _, _, st, [] => (st, [])
  | 0, _, st, _ :: _ => (st, [])
  | fuel + 1, ws, st, (a, v) :: rest =>
    let old := lookupVal st.values a
    let st1 := { st with values := aupdate st.values a v }
    let (st2, d1) := runEvent fuel ws st1 ⟨a, old, v, .changed⟩
    let (st3, d2) := goEffects fuel ws st2 rest
    (st3, d1 ++ d2)

end

/-- Processes a queue of deferred events until it is empty (up to fuel):
each event dispatches and may defer further events. -/
def drain : Nat → List Watcher → DispatchState → List Event → DispatchState
  | _, _, st, [] => st
  | 0, _, st, _ :: _ => st
  | fuel + 1, ws, st, e :: rest =>
    let (st1, d) := runEvent fuel ws st e
    drain fuel ws st1 (rest ++ d)

/-- Modelled from the documentation: a top-level attribute assignment
`obj.attr = v`.  The value is stored, a `changed` event is built with the
prior value as `old`, the event dispatches immediately to the matching
watchers in precedence order, and finally the events deferred by `queued`
watchers are processed. -/
def setAttrDispatch (fuel : Nat) (ws : List Watcher) (st : DispatchState)
    (a : String) (v : Int) : DispatchState :=
  let old := lookupVal st.values a
  let st1 := { st with values := aupdate st.values a v }
  let (st2, d) := runEvent fuel ws st1 ⟨a, old, v, .changed⟩
  drain fuel ws st2 d

/-- Modelled from the documentation: `.param.trigger(name)` synthesizes an
event for the attribute without changing its stored value and dispatches it;
watchers fire even though the value is not changing. -/
def triggerAttr (fuel : Nat) (ws : List Watcher) (st : DispatchState) (a : String) :
    DispatchState :=
  let cur := lookupVal st.values a
  let (st2, d) := runEvent fuel ws st ⟨a, cur, cur, .triggered⟩
  drain fuel ws st2 d

/-- Modelled from the spec: inside a batch scope, events for the same
(object, attribute, kind) are coalesced into a single event "carrying the
original old value and the final new value". -/
def coalesce (evs : List Event) (e : Event) : List Event :=
  match evs with
  | [] => [e]
  | e0 :: rest =>
    if e0.name == e.name then { e0 with new := e.new, type := e.type } :: rest
    else e0 :: coalesce rest e

/-- Performs the assignments of a batch scope: values are stored right away
while the generated events only accumulate, coalesced per attribute. -/
def batchCollect (st : DispatchState) (evs : List Event) :
    List (String × Int) → DispatchState × List Event
  | [] => (st, evs)
  | (a, v) :: rest =>
    let old := lookupVal st.values a
    let st1 := { st with values := aupdate st.values a v }
    batchCollect st1 (coalesce evs ⟨a, old, v, .changed⟩) rest

/-- Modelled from the documentation: `param.parameterized.batch_call_watchers`
accumulates the parameter changes performed inside the scope and dispatches
the coalesced events all at once when the scope exits. -/
def batch_call_watchers (fuel : Nat) (ws : List Watcher) (st : DispatchState)
    (sets : List (String × Int)) : DispatchState :=
  let (st1, evs) := batchCollect st [] sets
  drain fuel ws st1 evs

/-- A sub-object for a dotted-path dependency `"sub.attr"`: the current
value of its `attr` attribute and the ids of the watchers attached to that
attribute. -/
structure SubObj where
  value : Int
  watcherIds : List Nat
deriving DecidableEq

/-- State of an owner with a dotted-path dependency `"sub.attr"`: a heap of
sub-objects by id, the id currently held by the owner's `sub` attribute, and
the events so far delivered to the dependency's callback. -/
structure OwnerState where
  objs : List (Nat × SubObj)
  sub : Nat
  fired : List Event
deriving DecidableEq

/-- The `attr` value of a sub-object. -/
def subObjVal (st : OwnerState) (objId : Nat) : Int :=
  ((alookup st.objs objId).map (·.value)).getD 0

/-- The watcher ids attached to a sub-object's `attr`. -/
def subObjWatchers (st : OwnerState) (objId : Nat) : List Nat :=
  ((alookup st.objs objId).map (·.watcherIds)).getD []

/-- Removes a watcher from a sub-object. -/
def removeWatcher (objs : List (Nat × SubObj)) (objId wid : Nat) : List (Nat × SubObj) :=
  match alookup objs objId with
  | none => objs
  | some o => aupdate objs objId ⟨o.value, o.watcherIds.filter (· ≠ wid)⟩

/-- Adds a watcher to a sub-object. -/
def addWatcher (objs : List (Nat × SubObj)) (objId wid : Nat) : List (Nat × SubObj) :=
  match alookup objs objId with
  | none => objs
  | some o => aupdate objs objId ⟨o.value, wid :: o.watcherIds⟩

/-- Modelled from the spec and documentation: reassigning the root `sub` of a
dotted-path dependency "sub.attr" removes the dependency's watcher from the
old sub-object, adds it to the new one ("Param automatically rebinds the
dependencies to the new object"), performing a minimal diff (an identical
target is left untouched), and fires an event for the swap only when the
resolved value of the dependency differs across the swap ("if the values of
the dependencies on the old and new object are the same, no event is
fired"). -/
def reassignSub (st : OwnerState) (newId wid : Nat) : OwnerState :=
  let oldId := st.sub
  if oldId = newId then { st with sub := newId }
  else
    let oldVal := subObjVal st oldId
    let newVal := subObjVal st newId
    let objs2 := addWatcher (removeWatcher st.objs oldId wid) newId wid
    let fired2 :=
      if oldVal = newVal then st.fired
      else st.fired ++ [⟨"sub.attr", oldVal, newVal, .changed⟩]
    { objs := objs2, sub := newId, fired := fired2 }

/-- Modelled from the documentation: setting `attr` on a sub-object delivers
an event to the dependency's callback only when its watcher is attached to
that object (after a swap, "the previously bound sub-object is now no longer
connected"). -/
def setSubAttr (st : OwnerState) (objId : Nat) (v : Int) (wid : Nat) : OwnerState :=
  match alookup st.objs objId with
  | none => st
  | some o =>
    let st1 := { st with objs := aupdate st.objs objId ⟨v, o.watcherIds⟩ }
    if wid ∈ o.watcherIds then
      { st1 with fired := st1.fired ++ [⟨"sub.attr", o.value, v, .changed⟩] }
    else st1

/-- A heap of mutable containers: address `→` container contents, plus the
next fresh address.  Container values (e.g. list parameters) are stored
behind an address so that aliasing is observable in the model. -/
structure Heap where
  cells : List (Nat × List Int)
  next : Nat
deriving DecidableEq

/-- The contents stored at an address. -/
def readCells (h : Heap) (addr : Nat) : List Int :=
  (alookup h.cells addr).getD []

/-- Allocates a fresh cell holding the given contents. -/
def alloc (h : Heap) (contents : List Int) : Heap × Nat :=
  (⟨aupdate h.cells h.next contents, h.next + 1⟩, h.next)

/-- Modelled from the spec and release notes: mutable slot values are
"shallow-copied on instantiation, so that the container is no longer
confusingly shared between the class and its subclasses and instances"; a
subclass receives its own shallow copy of the class-level container at
class-creation time. -/
def subclassCopy (h : Heap) (classAddr : Nat) : Heap × Nat :=
  alloc h (readCells h classAddr)

/-- Modelled from the spec: at first instance-level access the instance
receives its own shallow copy of the class-level container. -/
def instantiateValue (h : Heap) (classAddr : Nat) : Heap × Nat :=
  alloc h (readCells h classAddr)

/-- In-place mutation of the container read from an instance (e.g.
`p1.attr.append(x)`). -/
def mutateCell (h : Heap) (addr : Nat) (x : Int) : Heap :=
  { h with cells := aupdate h.cells addr (readCells h addr ++ [x]) }

/-- An asynchronous executor for watcher callbacks. -/
inductive Executor where
  | asyncio_event_loop
  | custom (id : Nat)
deriving DecidableEq

/-- A watcher callback in the asynchronous model: synchronous or a
coroutine. -/
structure AsyncWatcher where
  id : Nat
  isAsync : Bool
deriving DecidableEq

/-- The process-wide watcher registry together with the
`param.parameterized.async_executor` hook. -/
structure AsyncRegistry where
  async_executor : Option Executor
  watchers : List AsyncWatcher
deriving DecidableEq

/-- Modelled from the documentation: "The asynchronous executor can be
defined on `param.parameterized.async_executor`; by default it will start an
asyncio event loop or reuse the one that is running."  The hook is present
by default. -/
def initialRegistry : AsyncRegistry :=
  ⟨some .asyncio_event_loop, []⟩

/-- Registering a watcher callback via `.param.watch`: rejected only when
the callback is a coroutine and no executor is available; with the default
executor present, asynchronous callbacks register successfully. -/
def watchRegister (r : AsyncRegistry) (w : AsyncWatcher) : Except Unit AsyncRegistry :=
  if w.isAsync && r.async_executor.isNone then .error ()
  else .ok { r with watchers := r.watchers ++ [w] }

/-- Modelled from the spec: dispatching one event over the registered
watchers.  Synchronous callbacks run inline and complete before the
triggering set call returns (first component, in order); each asynchronous
callback is scheduled onto the executor exactly once and never awaited
inline (second component). -/
def dispatchAsync (r : AsyncRegistry) : List Nat × List Nat :=
  (((r.watchers.filter (fun w => !w.isAsync)).map (·.id)),
   ((r.watchers.filter (fun w => w.isAsync)).map (·.id)))

/-- The stored value of a numeric parameter in the dynamic-value model: a
literal, or a zero-argument callable.  Successive invocations of the
callable are modelled by indexing it with the read count. -/
inductive DynValue where
  | literal (v : PValue)
  | callable (f : Nat → Int)

/-- A numeric parameter slot holding either a literal or a dynamic value. -/
structure DynParam where
  decl : ParamDecl
  stored : DynValue

/-- Modelled from the README and comparison documentation: any numeric
Parameter instance accepts a fully dynamic value; assigning a callable
stores it (`a.val = lambda: time()`). -/
def setDynamic (p : DynParam) (f : Nat → Int) : DynParam :=
  { p with stored := .callable f }

/-- Modelled from the README and comparison documentation: each read of a
dynamic value invokes the callable and returns the freshly computed value;
"all the usual type checking, etc. is done on dynamic values when they are
computed".  The callable itself is never returned. -/
def readDynamic (attr : String) (p : DynParam) (t : Nat) : Except ValidationError PValue :=
  match p.stored with
  | .literal v => .ok v
  | .callable f =>
    let v := PValue.num (f t)
    match validate attr p.decl v with
    | some e => .error e
    | none => .ok v

/-! ## Theorems -/

@[simp]
theorem alookup_aupdate_self {κ α : Type} [DecidableEq κ] (l : List (κ × α)) (k : κ) (v : α) :
    alookup (aupdate l k v) k = some v := by
  induction l with
  | nil => simp [aupdate, alookup]
  | cons p t ih =>
    obtain ⟨k0, v0⟩ := p
    by_cases hk : k0 = k
    · simp [aupdate, hk, alookup]
    · simp [aupdate, hk, alookup, ih]

theorem alookup_aupdate_ne {κ α : Type} [DecidableEq κ] (l : List (κ × α)) {k k' : κ}
    (v : α) (h : k' ≠ k) : alookup (aupdate l k v) k' = alookup l k' := by
  induction l with
  | nil => simp [aupdate, alookup, Ne.symm h]
  | cons p t ih =>
    obtain ⟨k0, v0⟩ := p
    by_cases hk : k0 = k
    · subst hk
      simp [aupdate, alookup, Ne.symm h]
    · simp [aupdate, hk, alookup, ih]

theorem validate_names_attr (attr : String) (p : ParamDecl) (v : PValue)
    (e : ValidationError) (h : validate attr p v = some e) : e.attr = attr := by
  unfold validate at h
  repeat' split at h
  all_goals (first | (injection h with h2; subst h2; rfl) | simp_all)

/-- C1: for every Parameterized subclass redeclaring an inherited parameter,
each metadata slot left at the `Undefined` sentinel on the local descriptor
is filled with the first specified value found walking ancestors in MRO
order, while an explicitly supplied value — including an explicit null
default — is kept as given.  In particular, for `A` (x with default `d1` and
bounds `b1`) and `B(A)` redeclaring x with only bounds `b2`, B resolves x
with default `d1` and bounds `b2`; this holds transitively over three
levels; and redeclaring x with an explicit default of null resolves to null
rather than the ancestor's non-null default. -/
theorem c1_attribute_inheritance (d1 : PValue) (b1 b2 : Bounds) (doc3 : String)
    (loc : ParamDecl) (ancs : List ParamDecl) :
    (loc.default = none →
      (mergeDecl loc ancs).default = (ancs.map (·.default)).findSome? id) ∧
    (∀ v, loc.default = some v → (mergeDecl loc ancs).default = some v) ∧
    (mergeDecl ⟨none, some b2, none, none⟩ [⟨some d1, some b1, none, none⟩]).default = some d1 ∧
    (mergeDecl ⟨none, some b2, none, none⟩ [⟨some d1, some b1, none, none⟩]).bounds = some b2 ∧
    (mergeDecl ⟨none, none, none, some doc3⟩
       [⟨none, some b2, none, none⟩, ⟨some d1, some b1, none, none⟩]).default = some d1 ∧
    (mergeDecl ⟨none, none, none, some doc3⟩
       [⟨none, some b2, none, none⟩, ⟨some d1, some b1, none, none⟩]).bounds = some b2 ∧
    (mergeDecl ⟨some PValue.null, none, none, none⟩
       [⟨some d1, some b1, none, none⟩]).default = some PValue.null := by
  refine ⟨fun h => ?_, fun v h => ?_, rfl, rfl, rfl, rfl, rfl⟩
  · simp [mergeDecl, inheritSlot, h]
  · simp [mergeDecl, inheritSlot, h]

/-- Witness for C1, instantiated at the spec's `Account` example: `balance`
with default 0 and bounds (0, None), redeclared with only bounds (0, 10000),
resolves its default to the inherited 0. -/
theorem c1_attribute_inheritance_witness :
    (mergeDecl ⟨none, some (some 0, some 10000), none, none⟩
       [⟨some (PValue.num 0), some (some 0, none), none, none⟩]).default
      = some (PValue.num 0) := by
  have h := (c1_attribute_inheritance (PValue.num 0) (some 0, none) (some 0, some 10000)
      "doc" ⟨none, some (some 0, some 10000), none, none⟩
      [⟨some (PValue.num 0), some (some 0, none), none, none⟩]).1 rfl
  simpa using h

/-- Counterexample to C2 as stated: at the upgrade guide's own example
(`A` declares x with default -1 and bounds (-5, 5); `B(A)` redeclares x with
only bounds (0, 5)), the resolved default -1 fails validation against the
resolved bounds, and in the current version (2.2.0 release notes: "raise
RuntimeError on ... failed validation of a parameter default after
inheritance") class creation raises and does not succeed — the failure is
not reported as a warning-level violation. -/
theorem c2_counterexample :
    createClass "B" "x" ⟨none, some (some 0, some 5), none, none⟩
      [⟨some (PValue.num (-1)), some (some (-5), some 5), none, none⟩]
      = .error ⟨"B", "x"⟩ := by
  rfl

/-- C2 amended: when, after the inheritance merge completes at
class-definition time, a parameter's resolved default fails validation
against the parameter's own resolved constraints, a `RuntimeError` naming
the owning class and the attribute is raised and class creation fails (this
became fatal in version 2.2.0; Param 2.0 had only warned). -/
theorem c2_default_validation_is_fatal (owner attr : String) (loc : ParamDecl)
    (ancs : List ParamDecl) (v : PValue) (e : ValidationError)
    (hd : (mergeDecl loc ancs).default = some v)
    (hv : validate attr (mergeDecl loc ancs) v = some e) :
    createClass owner attr loc ancs = .error ⟨owner, attr⟩ ∧
    ∀ merged, createClass owner attr loc ancs ≠ .ok merged := by
  refine ⟨?_, fun merged => ?_⟩ <;> simp [createClass, hd, hv]

/-- Witness for the amended C2, at the upgrade guide's example. -/
theorem c2_default_validation_is_fatal_witness :
    createClass "B" "x" ⟨none, some (some 0, some 5), none, none⟩
      [⟨some (PValue.num (-1)), some (some (-5), some 5), none, none⟩]
      = .error ⟨"B", "x"⟩ ∧
    ∀ merged, createClass "B" "x" ⟨none, some (some 0, some 5), none, none⟩
      [⟨some (PValue.num (-1)), some (some (-5), some 5), none, none⟩] ≠ .ok merged :=
  c2_default_validation_is_fatal "B" "x" _ _ (PValue.num (-1))
    (.below_lower_bound "x" 0) rfl rfl

/-- C3: a set with a candidate value failing validation raises an error
naming the violated constraint (the error constructor) and the attribute,
leaves the previously stored values completely unchanged, and a subsequent
valid set on the same attribute succeeds normally, storing the new value. -/
theorem c3_invalid_set_atomic (obj : Parameterized) (attr : String) (p : ParamDecl)
    (good bad : PValue) (e : ValidationError)
    (hp : alookup obj.decls attr = some p)
    (hbad : validate attr p bad = some e)
    (hgood : validate attr p good = none) :
    (setAttr obj attr bad = (obj, some e) ∧ e.attr = attr) ∧
    ((setAttr obj attr bad).1 = obj ∧
      ∀ a, getValue (setAttr obj attr bad).1 a = getValue obj a) ∧
    (setAttr obj attr good = ({ obj with values := aupdate obj.values attr good }, none) ∧
      getValue (setAttr obj attr good).1 attr = some good) := by
  have h1 : setAttr obj attr bad = (obj, some e) := by
    simp [setAttr, hp, hbad]
  have h2 : setAttr obj attr good
      = ({ obj with values := aupdate obj.values attr good }, none) := by
    simp [setAttr, hp, hgood]
  refine ⟨⟨h1, validate_names_attr attr p bad e hbad⟩,
          ⟨by rw [h1], fun a => by rw [h1]⟩, h2, ?_⟩
  rw [h2]
  simp [getValue]

/-- Witness for C3: an integer parameter `b` with bounds (0, None) holding 4;
setting -5 raises "must be at least 0" and leaves 4 stored, then setting 7
succeeds. -/
theorem c3_invalid_set_atomic_witness :
    (setAttr ⟨[("b", ⟨some (PValue.num 0), some (some 0, none), none, none⟩)],
        [("b", PValue.num 4)]⟩ "b" (PValue.num (-5))
      = (⟨[("b", ⟨some (PValue.num 0), some (some 0, none), none, none⟩)],
        [("b", PValue.num 4)]⟩, some (.below_lower_bound "b" 0)) ∧
      (ValidationError.below_lower_bound "b" 0).attr = "b") ∧
    ((setAttr ⟨[("b", ⟨some (PValue.num 0), some (some 0, none), none, none⟩)],
        [("b", PValue.num 4)]⟩ "b" (PValue.num (-5))).1
      = ⟨[("b", ⟨some (PValue.num 0), some (some 0, none), none, none⟩)],
        [("b", PValue.num 4)]⟩ ∧
      ∀ a, getValue (setAttr ⟨[("b", ⟨some (PValue.num 0), some (some 0, none), none, none⟩)],
        [("b", PValue.num 4)]⟩ "b" (PValue.num (-5))).1 a
        = getValue ⟨[("b", ⟨some (PValue.num 0), some (some 0, none), none, none⟩)],
        [("b", PValue.num 4)]⟩ a) ∧
    (setAttr ⟨[("b", ⟨some (PValue.num 0), some (some 0, none), none, none⟩)],
        [("b", PValue.num 4)]⟩ "b" (PValue.num 7)
      = (⟨[("b", ⟨some (PValue.num 0), some (some 0, none), none, none⟩)],
        aupdate [("b", PValue.num 4)] "b" (PValue.num 7)⟩, none) ∧
      getValue (setAttr ⟨[("b", ⟨some (PValue.num 0), some (some 0, none), none, none⟩)],
        [("b", PValue.num 4)]⟩ "b" (PValue.num 7)).1 "b" = some (PValue.num 7)) :=
  c3_invalid_set_atomic _ "b" _ (PValue.num 7) (PValue.num (-5))
    (.below_lower_bound "b" 0) rfl rfl rfl

theorem runWatcher_pure (ws : List Watcher) (st : DispatchState) (w : Watcher) (e : Event)
    (fuel : Nat) (hw : w.effect = ([] : List (String × Int))) (hf : 0 < fuel) :
    runWatcher fuel ws st w e = ({ st with invoked := st.invoked ++ [(w.id, e)] }, []) := by
  obtain ⟨f, rfl⟩ : ∃ f, fuel = f + 1 := ⟨fuel - 1, by omega⟩
  cases hq : w.queued <;> simp [runWatcher, hw, hq, collectSets, goEffects]

theorem goWatchers_pure (ws : List Watcher) (e : Event) :
    ∀ (l : List Watcher) (fuel : Nat) (st : DispatchState),
      (∀ w ∈ l, w.effect = ([] : List (String × Int))) → l.length < fuel →
      goWatchers fuel ws st l e =
        ({ st with invoked := st.invoked ++ l.map (fun w => (w.id, e)) }, []) := by
  intro l
  induction l with
  | nil =>
    intro fuel st _ _
    cases fuel <;> simp [goWatchers]
  | cons w rest ih =>
    intro fuel st hl hf
    obtain ⟨f, rfl⟩ : ∃ f, fuel = f + 1 := ⟨fuel - 1, by omega⟩
    have hfl : rest.length < f := by
      simp only [List.length_cons] at hf
      omega
    have h0 : 0 < f := Nat.lt_of_le_of_lt (Nat.zero_le _) hfl
    have hrw := runWatcher_pure ws st w e f (hl w (by simp)) h0
    have hih := ih f { st with invoked := st.invoked ++ [(w.id, e)] }
        (fun ww hww => hl ww (by simp [hww])) hfl
    simp [goWatchers, hrw, hih]

theorem mem_matchingWatchers {ws : List Watcher} {e : Event} {w : Watcher}
    (h : w ∈ matchingWatchers ws e) : w ∈ ws ∧ receives w e = true := by
  have h1 : w ∈ ws.filter (fun w => receives w e) :=
    ((List.perm_insertionSort precLE _).mem_iff).mp h
  exact ⟨(List.mem_filter.mp h1).1, (List.mem_filter.mp h1).2⟩

theorem matchingWatchers_length_le (ws : List Watcher) (e : Event) :
    (matchingWatchers ws e).length ≤ ws.length := by
  have hp := (List.perm_insertionSort precLE (ws.filter (fun w => receives w e))).length_eq
  rw [matchingWatchers, hp]
  exact List.length_filter_le _ _

/-- C4: for a watcher registered with `onlychanged=True` on attribute `y`,
setting `y` to a value equal to its current value fires zero events; setting
`y` to a different value fires exactly one event whose `old` and `new`
fields are the prior and the new value; and an explicit `trigger` on `y`
invokes `y`'s watchers exactly once even though the stored value does not
change. -/
theorem c4_onlychanged_watcher (st : DispatchState) (w : Watcher) (y : String)
    (vnew : Int) (fuel : Nat)
    (hattr : w.attr = y) (honly : w.onlychanged = true)
    (heff : w.effect = ([] : List (String × Int)))
    (hne : vnew ≠ lookupVal st.values y) (hfuel : 3 ≤ fuel) :
    (setAttrDispatch fuel [w] st y (lookupVal st.values y)).invoked = st.invoked ∧
    (setAttrDispatch fuel [w] st y vnew).invoked
      = st.invoked ++ [(w.id, ⟨y, lookupVal st.values y, vnew, .changed⟩)] ∧
    (triggerAttr fuel [w] st y).invoked
      = st.invoked ++ [(w.id, ⟨y, lookupVal st.values y, lookupVal st.values y, .triggered⟩)] ∧
    (triggerAttr fuel [w] st y).values = st.values := by
  obtain ⟨f, rfl⟩ : ∃ f, fuel = f + 1 := ⟨fuel - 1, by omega⟩
  have hf2 : 1 < f := by omega
  have hrecv1 : receives w ⟨y, lookupVal st.values y, lookupVal st.values y, .changed⟩
      = false := by
    simp [receives, honly]
  have hmatch1 : matchingWatchers [w] ⟨y, lookupVal st.values y, lookupVal st.values y,
      .changed⟩ = [] := by
    simp [matchingWatchers, hrecv1, List.insertionSort]
  have hrecv2 : receives w ⟨y, lookupVal st.values y, vnew, .changed⟩ = true := by
    simp [receives, hattr, honly, bne_iff_ne]
    exact Ne.symm hne
  have hmatch2 : matchingWatchers [w] ⟨y, lookupVal st.values y, vnew, .changed⟩ = [w] := by
    simp [matchingWatchers, hrecv2, List.insertionSort, List.orderedInsert]
  have hrecv3 : receives w ⟨y, lookupVal st.values y, lookupVal st.values y, .triggered⟩
      = true := by
    simp [receives, hattr]
  have hmatch3 : matchingWatchers [w] ⟨y, lookupVal st.values y, lookupVal st.values y,
      .triggered⟩ = [w] := by
    simp [matchingWatchers, hrecv3, List.insertionSort, List.orderedInsert]
  have hpure := goWatchers_pure [w] ⟨y, lookupVal st.values y, vnew, .changed⟩ [w] f
      { st with values := aupdate st.values y vnew } (by simp [heff]) (by simpa using hf2)
  have hpure3 := goWatchers_pure [w] ⟨y, lookupVal st.values y, lookupVal st.values y,
      .triggered⟩ [w] f st (by simp [heff]) (by simpa using hf2)
  refine ⟨?_, ?_, ?_, ?_⟩
  · simp [setAttrDispatch, runEvent, hmatch1, goWatchers, drain]
  · simp [setAttrDispatch, runEvent, hmatch2, hpure, drain]
  · simp [triggerAttr, runEvent, hmatch3, hpure3, drain]
  · simp [triggerAttr, runEvent, hmatch3, hpure3, drain]

/-- Witness for C4, at the user-guide scenario: an Integer attribute `b`
currently 0 with a default (onlychanged) watcher. -/
theorem c4_onlychanged_watcher_witness :
    (setAttrDispatch 3 [⟨1, "b", true, false, 0, []⟩] ⟨[("b", 0)], []⟩ "b"
        (lookupVal [("b", 0)] "b")).invoked = [] ∧
    (setAttrDispatch 3 [⟨1, "b", true, false, 0, []⟩] ⟨[("b", 0)], []⟩ "b" 5).invoked
      = [] ++ [(1, ⟨"b", lookupVal [("b", 0)] "b", 5, .changed⟩)] ∧
    (triggerAttr 3 [⟨1, "b", true, false, 0, []⟩] ⟨[("b", 0)], []⟩ "b").invoked
      = [] ++ [(1, ⟨"b", lookupVal [("b", 0)] "b", lookupVal [("b", 0)] "b", .triggered⟩)] ∧
    (triggerAttr 3 [⟨1, "b", true, false, 0, []⟩] ⟨[("b", 0)], []⟩ "b").values
      = [("b", 0)] :=
  c4_onlychanged_watcher ⟨[("b", 0)], []⟩ ⟨1, "b", true, false, 0, []⟩ "b" 5 3
    rfl rfl rfl (by decide) (by decide)

/-- C5: while a batch scope is open, multiple sets to the same attribute are
coalesced so that on batch close each matching non-queued watcher is invoked
exactly once with a single event whose `old` field is the pre-batch value
and whose `new` field is the final value; intermediate values are never
separately delivered.  (Following the spec, an onlychanged watcher is
suppressed entirely when the coalesced event shows no net change, which the
`matchingWatchers` filter encodes.) -/
theorem c5_batch_coalescing (ws : List Watcher) (st : DispatchState) (y : String)
    (v1 v2 v3 : Int) (fuel : Nat)
    (hws : ∀ w ∈ ws, w.effect = ([] : List (String × Int)) ∧ w.queued = false)
    (hfuel : ws.length + 3 ≤ fuel) :
    (batch_call_watchers fuel ws st [(y, v1), (y, v2), (y, v3)]).invoked
      = st.invoked
        ++ (matchingWatchers ws ⟨y, lookupVal st.values y, v3, .changed⟩).map
            (fun w => (w.id, ⟨y, lookupVal st.values y, v3, .changed⟩)) ∧
    ∀ w ∈ matchingWatchers ws ⟨y, lookupVal st.values y, v3, .changed⟩,
      w.attr = y ∧ w ∈ ws := by
  obtain ⟨f, rfl⟩ : ∃ f, fuel = f + 1 := ⟨fuel - 1, by omega⟩
  obtain ⟨g, rfl⟩ : ∃ g, f = g + 1 := ⟨f - 1, by omega⟩
  have hbc : batchCollect st [] [(y, v1), (y, v2), (y, v3)]
      = ({ st with values := aupdate (aupdate (aupdate st.values y v1) y v2) y v3 },
         [⟨y, lookupVal st.values y, v3, .changed⟩]) := by
    simp [batchCollect, coalesce, lookupVal]
  have hlen : (matchingWatchers ws ⟨y, lookupVal st.values y, v3, .changed⟩).length < g := by
    have := matchingWatchers_length_le ws ⟨y, lookupVal st.values y, v3, .changed⟩
    omega
  have hpure := goWatchers_pure ws ⟨y, lookupVal st.values y, v3, .changed⟩
      (matchingWatchers ws ⟨y, lookupVal st.values y, v3, .changed⟩) g
      { st with values := aupdate (aupdate (aupdate st.values y v1) y v2) y v3 }
      (fun w hw => (hws w (mem_matchingWatchers hw).1).1) hlen
  constructor
  · simp [batch_call_watchers, hbc, drain, runEvent, hpure]
  · intro w hw
    obtain ⟨hmem, hrecv⟩ := mem_matchingWatchers hw
    simp [receives] at hrecv
    exact ⟨hrecv.1, hmem⟩

/-- Witness for C5, at the user-guide scenario: one watcher of `y`, three
batched assignments; exactly one invocation is delivered, carrying the
pre-batch value 0 as `old` and the final value 9 as `new`. -/
theorem c5_batch_coalescing_witness :
    (batch_call_watchers 4 [⟨1, "y", true, false, 0, []⟩] ⟨[("y", 0)], []⟩
        [("y", 7), ("y", 8), ("y", 9)]).invoked
      = [] ++ (matchingWatchers [⟨1, "y", true, false, 0, []⟩]
            ⟨"y", lookupVal [("y", 0)] "y", 9, .changed⟩).map
            (fun w => (w.id, ⟨"y", lookupVal [("y", 0)] "y", 9, .changed⟩)) ∧
    ∀ w ∈ matchingWatchers [⟨1, "y", true, false, 0, []⟩]
        ⟨"y", lookupVal [("y", 0)] "y", 9, .changed⟩,
      w.attr = "y" ∧ w ∈ [⟨1, "y", true, false, 0, []⟩] :=
  c5_batch_coalescing [⟨1, "y", true, false, 0, []⟩] ⟨[("y", 0)], []⟩ "y" 7 8 9 4
    (by decide) (by decide)

/-- Counterexample to C6 as stated: W1 (id 1, not queued, precedence 1) on
`a` sets `b` in its callback; W2 (id 2, queued) watches `b`; W3 (id 3, not
queued, precedence 2) also watches `a`.  Setting `a` yields the invocation
order [W1, W2, W3]: the queued watcher W2 is invoked during W1's side
effect, before the non-queued watcher W3 of the original event has even
started — so it is false that every non-queued watcher triggered by the
current batch completes before any queued watcher is invoked.  (In the
documented semantics, `queued=True` defers the events generated by that
watcher's own callback, not the watcher's invocation.) -/
theorem c6_counterexample :
    ((setAttrDispatch 10
        [⟨1, "a", false, false, 1, [("b", 1)]⟩,
         ⟨2, "b", false, true, 0, []⟩,
         ⟨3, "a", false, false, 2, []⟩]
        ⟨[("a", 0), ("b", 0)], []⟩ "a" 1).invoked.map Prod.fst = [1, 2, 3]) ∧
    (⟨2, "b", false, true, 0, ([] : List (String × Int))⟩ : Watcher).queued = true ∧
    (⟨3, "a", false, false, 2, ([] : List (String × Int))⟩ : Watcher).queued = false := by
  decide

/-- C6 amended: within a dispatch cycle the watchers matching an event are
invoked in ascending order of their `precedence` key regardless of the
`queued` flag; a watcher registered with `queued=True` has the events
generated by its own callback deferred until all watchers of the
originating event have completed, instead of dispatching them re-entrantly
(while a non-queued watcher's side effects dispatch immediately,
depth-first).  At the user-guide scenario — run_a1 (id 1, queued,
precedence 2) on `a` sets `b`; run_a2 (id 2, precedence 1) on `a`; run_b
(id 3) on `b` — setting `a` runs run_a2, then run_a1, and run_b only after
run_a1 has completed: the invocation order is [2, 1, 3]. -/
theorem c6_precedence_and_queued_semantics (ws : List Watcher) (e : Event) :
    List.Sorted precLE (matchingWatchers ws e) ∧
    ((setAttrDispatch 10
        [⟨1, "a", true, true, 2, [("b", 1)]⟩,
         ⟨2, "a", true, false, 1, []⟩,
         ⟨3, "b", true, false, 0, []⟩]
        ⟨[("a", 0), ("b", 0)], []⟩ "a" 1).invoked.map Prod.fst = [2, 1, 3]) :=
  ⟨List.sorted_insertionSort precLE _, by decide⟩

/-- C7: for a dotted-path dependency "sub.attr", when the root attribute
`sub` is reassigned to a different object, the dependency's watcher is
removed from the old sub-object and added to the new one (the old object no
longer triggers the callback), and if the resolved value of the dependency
is equal across the swap, no event is fired for the swap itself. -/
theorem c7_subobject_rebinding (st : OwnerState) (newId wid : Nat)
    (vold vnew : Int) (wold wnew : List Nat)
    (hold : alookup st.objs st.sub = some ⟨vold, wold⟩)
    (hnew : alookup st.objs newId = some ⟨vnew, wnew⟩)
    (hne : st.sub ≠ newId) :
    wid ∉ subObjWatchers (reassignSub st newId wid) st.sub ∧
    wid ∈ subObjWatchers (reassignSub st newId wid) newId ∧
    (∀ v, (setSubAttr (reassignSub st newId wid) st.sub v wid).fired
        = (reassignSub st newId wid).fired) ∧
    (vold = vnew → (reassignSub st newId wid).fired = st.fired) ∧
    (vold ≠ vnew → (reassignSub st newId wid).fired
        = st.fired ++ [⟨"sub.attr", vold, vnew, .changed⟩]) := by
  have hne2 : newId ≠ st.sub := Ne.symm hne
  refine ⟨?_, ?_, ?_, ?_, ?_⟩
  · simp [reassignSub, if_neg hne, subObjWatchers, subObjVal, removeWatcher, addWatcher,
      hold, hnew, alookup_aupdate_ne, hne, hne2, List.mem_filter]
  · simp [reassignSub, if_neg hne, subObjWatchers, subObjVal, removeWatcher, addWatcher,
      hold, hnew, alookup_aupdate_ne, hne, hne2]
  · intro v
    simp [reassignSub, if_neg hne, setSubAttr, subObjVal, removeWatcher, addWatcher,
      hold, hnew, alookup_aupdate_ne, hne, hne2, List.mem_filter]
  · intro h
    simp [reassignSub, if_neg hne, subObjVal, hold, hnew, h]
  · intro h
    simp [reassignSub, if_neg hne, subObjVal, hold, hnew, h]

/-- Witness for C7: the owner's `sub` moves from object 1 to object 2, both
holding the value 5; the watcher (id 7) moves with it and no event fires. -/
theorem c7_subobject_rebinding_witness :
    7 ∉ subObjWatchers (reassignSub ⟨[(1, ⟨5, [7]⟩), (2, ⟨5, []⟩)], 1, []⟩ 2 7) 1 ∧
    7 ∈ subObjWatchers (reassignSub ⟨[(1, ⟨5, [7]⟩), (2, ⟨5, []⟩)], 1, []⟩ 2 7) 2 ∧
    (∀ v, (setSubAttr (reassignSub ⟨[(1, ⟨5, [7]⟩), (2, ⟨5, []⟩)], 1, []⟩ 2 7) 1 v 7).fired
        = (reassignSub ⟨[(1, ⟨5, [7]⟩), (2, ⟨5, []⟩)], 1, []⟩ 2 7).fired) ∧
    ((5 : Int) = 5 → (reassignSub ⟨[(1, ⟨5, [7]⟩), (2, ⟨5, []⟩)], 1, []⟩ 2 7).fired = []) ∧
    ((5 : Int) ≠ 5 → (reassignSub ⟨[(1, ⟨5, [7]⟩), (2, ⟨5, []⟩)], 1, []⟩ 2 7).fired
        = [] ++ [⟨"sub.attr", 5, 5, .changed⟩]) :=
  c7_subobject_rebinding ⟨[(1, ⟨5, [7]⟩), (2, ⟨5, []⟩)], 1, []⟩ 2 7 5 5 [7] []
    rfl rfl (by decide)

/-- C8: for an attribute with a mutable container default, the container is
shallow-copied into an instance's namespace at first instance-level access
(`instantiateValue`) and into a subclass's namespace at class-creation time
(`subclassCopy`), at distinct fresh addresses; mutating the container read
from instance `p1` therefore changes neither sibling `p2`'s value nor the
class-level default, and mutating a subclass's copy leaves the parent
class's default unchanged. -/
theorem c8_no_aliasing (h : Heap) (ca : Nat) (x : Int) (hca : ca < h.next) :
    (instantiateValue h ca).2 ≠ (instantiateValue (instantiateValue h ca).1 ca).2 ∧
    (instantiateValue h ca).2 ≠ ca ∧
    (instantiateValue (instantiateValue h ca).1 ca).2 ≠ ca ∧
    readCells (mutateCell (instantiateValue (instantiateValue h ca).1 ca).1
        (instantiateValue h ca).2 x) (instantiateValue (instantiateValue h ca).1 ca).2
      = readCells h ca ∧
    readCells (mutateCell (instantiateValue (instantiateValue h ca).1 ca).1
        (instantiateValue h ca).2 x) ca = readCells h ca ∧
    readCells (mutateCell (instantiateValue (instantiateValue h ca).1 ca).1
        (instantiateValue h ca).2 x) (instantiateValue h ca).2
      = readCells h ca ++ [x] ∧
    readCells (mutateCell (subclassCopy h ca).1 (subclassCopy h ca).2 x) ca
      = readCells h ca ∧
    readCells (mutateCell (subclassCopy h ca).1 (subclassCopy h ca).2 x) (subclassCopy h ca).2
      = readCells h ca ++ [x] := by
  have hA : h.next ≠ h.next + 1 := by omega
  have hA2 : h.next + 1 ≠ h.next := by omega
  have hB : ca ≠ h.next := by omega
  have hB2 : h.next ≠ ca := by omega
  have hC : ca ≠ h.next + 1 := by omega
  have hC2 : h.next + 1 ≠ ca := by omega
  refine ⟨?_, ?_, ?_, ?_, ?_, ?_, ?_, ?_⟩ <;>
    simp [instantiateValue, subclassCopy, alloc, mutateCell, readCells,
      alookup_aupdate_ne, hA, hA2, hB, hB2, hC, hC2]

/-- Witness for C8: a class default [1, 2] at address 0; two instance copies
are materialized, the first is mutated by appending 9, and the second copy
and the class default still read [1, 2]. -/
theorem c8_no_aliasing_witness :
    (instantiateValue ⟨[(0, [1, 2])], 1⟩ 0).2
        ≠ (instantiateValue (instantiateValue ⟨[(0, [1, 2])], 1⟩ 0).1 0).2 ∧
    (instantiateValue ⟨[(0, [1, 2])], 1⟩ 0).2 ≠ 0 ∧
    (instantiateValue (instantiateValue ⟨[(0, [1, 2])], 1⟩ 0).1 0).2 ≠ 0 ∧
    readCells (mutateCell (instantiateValue (instantiateValue ⟨[(0, [1, 2])], 1⟩ 0).1 0).1
        (instantiateValue ⟨[(0, [1, 2])], 1⟩ 0).2 9)
        (instantiateValue (instantiateValue ⟨[(0, [1, 2])], 1⟩ 0).1 0).2
      = readCells ⟨[(0, [1, 2])], 1⟩ 0 ∧
    readCells (mutateCell (instantiateValue (instantiateValue ⟨[(0, [1, 2])], 1⟩ 0).1 0).1
        (instantiateValue ⟨[(0, [1, 2])], 1⟩ 0).2 9) 0
      = readCells ⟨[(0, [1, 2])], 1⟩ 0 ∧
    readCells (mutateCell (instantiateValue (instantiateValue ⟨[(0, [1, 2])], 1⟩ 0).1 0).1
        (instantiateValue ⟨[(0, [1, 2])], 1⟩ 0).2 9)
        (instantiateValue ⟨[(0, [1, 2])], 1⟩ 0).2
      = readCells ⟨[(0, [1, 2])], 1⟩ 0 ++ [9] ∧
    readCells (mutateCell (subclassCopy ⟨[(0, [1, 2])], 1⟩ 0).1
        (subclassCopy ⟨[(0, [1, 2])], 1⟩ 0).2 9) 0
      = readCells ⟨[(0, [1, 2])], 1⟩ 0 ∧
    readCells (mutateCell (subclassCopy ⟨[(0, [1, 2])], 1⟩ 0).1
        (subclassCopy ⟨[(0, [1, 2])], 1⟩ 0).2 9) (subclassCopy ⟨[(0, [1, 2])], 1⟩ 0).2
      = readCells ⟨[(0, [1, 2])], 1⟩ 0 ++ [9] :=
  c8_no_aliasing ⟨[(0, [1, 2])], 1⟩ 0 9 (by decide)

/-- Counterexample to C9 as stated: the documentation says the
`async_executor` hook "by default .. will start an asyncio event loop or
reuse the one that is running" — so the hook is not absent by default, and
registering an asynchronous watcher callback without supplying an executor
succeeds rather than being rejected as a declaration error. -/
theorem c9_counterexample :
    initialRegistry.async_executor = some Executor.asyncio_event_loop ∧
    exceptOk (watchRegister initialRegistry ⟨1, true⟩) = true := by
  decide

/-- C9 amended: the process-wide asynchronous executor hook has a default
implementation (start or reuse an asyncio event loop), so registering an
asynchronous watcher callback succeeds without supplying an executor; when
dispatching, each async watcher is scheduled onto the executor exactly once
and never run inline, while the synchronous watchers run inline and so
complete before the triggering set call returns. -/
theorem c9_async_executor_scheduling (r : AsyncRegistry) (w : AsyncWatcher)
    (hexec : r.async_executor.isSome = true)
    (hasync : w.isAsync = true)
    (hfresh : ∀ w0 ∈ r.watchers, w0.id ≠ w.id) :
    watchRegister r w = .ok { r with watchers := r.watchers ++ [w] } ∧
    (dispatchAsync { r with watchers := r.watchers ++ [w] }).2.count w.id = 1 ∧
    w.id ∉ (dispatchAsync { r with watchers := r.watchers ++ [w] }).1 ∧
    (∀ w0 ∈ r.watchers ++ [w], w0.isAsync = false →
        w0.id ∈ (dispatchAsync { r with watchers := r.watchers ++ [w] }).1) := by
  obtain ⟨ex, hex⟩ := Option.isSome_iff_exists.mp hexec
  have hzero : ((r.watchers.filter (fun x => x.isAsync)).map (·.id)).count w.id = 0 := by
    refine List.count_eq_zero.mpr ?_
    intro hmem
    obtain ⟨w0, hw0, hid⟩ := List.mem_map.mp hmem
    exact hfresh w0 (List.mem_filter.mp hw0).1 hid
  refine ⟨?_, ?_, ?_, ?_⟩
  · simp [watchRegister, hasync, hex]
  · simp [dispatchAsync, List.filter_append, hasync, hzero]
  · simp only [dispatchAsync, List.filter_append, List.map_append]
    intro hmem
    rw [List.mem_append] at hmem
    rcases hmem with hmem | hmem
    · obtain ⟨w0, hw0, hid⟩ := List.mem_map.mp hmem
      exact hfresh w0 (List.mem_filter.mp hw0).1 hid
    · simp [hasync] at hmem
  · intro w0 hw0 hsync
    simp only [dispatchAsync]
    rw [List.mem_append] at hw0
    rcases hw0 with hw0 | hw0
    · exact List.mem_map.mpr ⟨w0, List.mem_filter.mpr ⟨List.mem_append.mpr (Or.inl hw0),
        by simp [hsync]⟩, rfl⟩
    · simp only [List.mem_singleton] at hw0
      subst hw0
      rw [hasync] at hsync
      cases hsync

/-- Witness for the amended C9: the default registry accepts an async
watcher (id 1) and dispatch schedules it exactly once, inline-running only
synchronous watchers. -/
theorem c9_async_executor_scheduling_witness :
    watchRegister initialRegistry ⟨1, true⟩
      = .ok { initialRegistry with watchers := initialRegistry.watchers ++ [⟨1, true⟩] } ∧
    (dispatchAsync { initialRegistry with
        watchers := initialRegistry.watchers ++ [⟨1, true⟩] }).2.count 1 = 1 ∧
    (1 : Nat) ∉ (dispatchAsync { initialRegistry with
        watchers := initialRegistry.watchers ++ [⟨1, true⟩] }).1 ∧
    (∀ w0 ∈ initialRegistry.watchers ++ [⟨1, true⟩], w0.isAsync = false →
        w0.id ∈ (dispatchAsync { initialRegistry with
          watchers := initialRegistry.watchers ++ [⟨1, true⟩] }).1) :=
  c9_async_executor_scheduling initialRegistry ⟨1, true⟩ rfl rfl (by decide)

/-- C10: for a numeric parameter, assigning a zero-argument callable makes
every subsequent read invoke the callable and return the freshly computed
value, with the usual type and range validation applied to each computed
value at the time it is produced; a read never returns the callable object
itself, so two consecutive reads may return different values. -/
theorem c10_dynamic_values (p : DynParam) (attr : String) (f : Nat → Int) (t1 t2 : Nat)
    (hv1 : validate attr p.decl (.num (f t1)) = none)
    (hv2 : validate attr p.decl (.num (f t2)) = none)
    (hne : f t1 ≠ f t2) :
    (∀ t, validate attr p.decl (.num (f t)) = none →
        readDynamic attr (setDynamic p f) t = .ok (.num (f t))) ∧
    (∀ t e, validate attr p.decl (.num (f t)) = some e →
        readDynamic attr (setDynamic p f) t = .error e) ∧
    readDynamic attr (setDynamic p f) t1 = .ok (.num (f t1)) ∧
    readDynamic attr (setDynamic p f) t2 = .ok (.num (f t2)) ∧
    readDynamic attr (setDynamic p f) t1 ≠ readDynamic attr (setDynamic p f) t2 ∧
    (∀ t v, readDynamic attr (setDynamic p f) t = .ok v → ∃ n : Int, v = PValue.num n) := by
  refine ⟨?_, ?_, ?_, ?_, ?_, ?_⟩
  · intro t ht
    simp [readDynamic, setDynamic, ht]
  · intro t e ht
    simp [readDynamic, setDynamic, ht]
  · simp [readDynamic, setDynamic, hv1]
  · simp [readDynamic, setDynamic, hv2]
  · simp [readDynamic, setDynamic, hv1, hv2, hne]
  · intro t v hv
    simp only [readDynamic, setDynamic] at hv
    split at hv
    · exact absurd hv (by simp)
    · exact ⟨f t, by injection hv with hh; exact hh.symm⟩

/-- Witness for C10: a Number parameter with bounds (0, None) set to the
callable `fun t => t`; reads at times 0 and 1 return 0 and 1. -/
theorem c10_dynamic_values_witness :
    (∀ t, validate "val" (ParamDecl.mk (some (PValue.num 0)) (some (some 0, none)) none none)
        (.num ((fun t : Nat => (t : Int)) t)) = none →
        readDynamic "val" (setDynamic ⟨⟨some (PValue.num 0), some (some 0, none), none, none⟩,
          .literal (PValue.num 0)⟩ (fun t : Nat => (t : Int))) t
          = .ok (.num ((fun t : Nat => (t : Int)) t))) ∧
    (∀ t e, validate "val" (ParamDecl.mk (some (PValue.num 0)) (some (some 0, none)) none none)
        (.num ((fun t : Nat => (t : Int)) t)) = some e →
        readDynamic "val" (setDynamic ⟨⟨some (PValue.num 0), some (some 0, none), none, none⟩,
          .literal (PValue.num 0)⟩ (fun t : Nat => (t : Int))) t = .error e) ∧
    readDynamic "val" (setDynamic ⟨⟨some (PValue.num 0), some (some 0, none), none, none⟩,
        .literal (PValue.num 0)⟩ (fun t : Nat => (t : Int))) 0
      = .ok (.num ((fun t : Nat => (t : Int)) 0)) ∧
    readDynamic "val" (setDynamic ⟨⟨some (PValue.num 0), some (some 0, none), none, none⟩,
        .literal (PValue.num 0)⟩ (fun t : Nat => (t : Int))) 1
      = .ok (.num ((fun t : Nat => (t : Int)) 1)) ∧
    readDynamic "val" (setDynamic ⟨⟨some (PValue.num 0), some (some 0, none), none, none⟩,
        .literal (PValue.num 0)⟩ (fun t : Nat => (t : Int))) 0
      ≠ readDynamic "val" (setDynamic ⟨⟨some (PValue.num 0), some (some 0, none), none, none⟩,
        .literal (PValue.num 0)⟩ (fun t : Nat => (t : Int))) 1 ∧
    (∀ t v, readDynamic "val" (setDynamic ⟨⟨some (PValue.num 0), some (some 0, none), none, none⟩,
        .literal (PValue.num 0)⟩ (fun t : Nat => (t : Int))) t = .ok v →
        ∃ n : Int, v = PValue.num n) :=
  c10_dynamic_values ⟨⟨some (PValue.num 0), some (some 0, none), none, none⟩,
    .literal (PValue.num 0)⟩ "val" (fun t : Nat => (t : Int)) 0 1 rfl rfl (by decide)

end Param
